import Mathlib

/-!
Shallow embedding of the SHA claims-lifecycle and contribution-accounting
subsystem (models.py, views.py, admin.py) together with theorems checking
the specification's claims against it.

Timestamps are modelled as natural numbers (seconds), money amounts as
integers (cents), users and entities by numeric identifiers.  Randomness
(the `secrets.choice(string.digits)` draws) is modelled by an explicit
digit source of type `Fin 6 → Fin 10`.
-/

/- ==================================================================
   Claim model and the claim_detail review view (views.py 471-539)
   ================================================================== -/

/-- Claim.CLAIM_STATUS choices (models.py 551-557). -/
inductive ClaimStatus
  | submitted
  | under_review
  | approved
  | rejected
  | paid
deriving DecidableEq, Repr

/-- The Claim model (models.py 541-588); foreign keys kept as numeric ids,
DecimalField amounts as integer cents, DateTimeFields as `Option Nat`. -/
structure Claim where
  hospital : Nat
  visit : Nat
  claim_number : String
  claim_type : String
  amount_claimed : Int
  amount_approved : Option Int
  status : ClaimStatus
  submitted_date : Nat
  reviewed_date : Option Nat
  reviewed_by : Option Nat
  rejection_reason : String
  review_notes : String
deriving DecidableEq, Repr

/-- The approve branch of the claim_detail view (views.py 483-509).
`parsed` is the result of `Decimal(approved_amount)`: `none` models the
ValueError/TypeError path, in which the claim is left untouched; on a
successful parse the view unconditionally sets status, amount_approved,
review_notes, reviewed_date and reviewed_by — it inspects neither the
current status nor the relation of the amount to amount_claimed. -/
def claimApprove (c : Claim) (parsed : Option Int) (notes : String)
    (now reviewer : Nat) : Claim :=
  match parsed with
  | none => c
  | some amt =>
      { c with status := .approved, amount_approved := some amt,
               review_notes := notes, reviewed_date := some now,
               reviewed_by := some reviewer }

/-- The reject branch of the claim_detail view (views.py 511-533): an empty
rejection reason only produces an error message and mutates nothing; a
non-empty reason sets status, rejection_reason, reviewed_date, reviewed_by. -/
def claimReject (c : Claim) (reason : String) (now reviewer : Nat) : Claim :=
  if reason = "" then c
  else
    { c with status := .rejected, rejection_reason := reason,
             reviewed_date := some now, reviewed_by := some reviewer }

/- ==================================================================
   Bulk admin actions (admin.py 518-534 and 138-145)
   ================================================================== -/

/-- Per-row effect of ClaimAdmin.approve_claims (admin.py 518-525):
`queryset.filter(status='submitted').update(...)` touches exactly the rows
whose status is 'submitted'. -/
def approveOneIfSubmitted (now reviewer : Nat) (c : Claim) : Claim :=
  if c.status = .submitted then
    { c with status := .approved, reviewed_date := some now,
             reviewed_by := some reviewer }
  else c

/-- Per-row effect of ClaimAdmin.reject_claims (admin.py 527-534). -/
def rejectOneIfSubmitted (now reviewer : Nat) (c : Claim) : Claim :=
  if c.status = .submitted then
    { c with status := .rejected, reviewed_date := some now,
             reviewed_by := some reviewer }
  else c

/-- ClaimAdmin.approve_claims: updates the filtered rows and reports Django's
`update` row count, i.e. the number of rows that matched the filter. -/
def bulkApproveClaims (claims : List Claim) (now reviewer : Nat) :
    List Claim × Nat :=
  (claims.map (approveOneIfSubmitted now reviewer),
   (claims.filter (fun c => c.status = .submitted)).length)

/-- ClaimAdmin.reject_claims, same shape as bulkApproveClaims. -/
def bulkRejectClaims (claims : List Claim) (now reviewer : Nat) :
    List Claim × Nat :=
  (claims.map (rejectOneIfSubmitted now reviewer),
   (claims.filter (fun c => c.status = .submitted)).length)

/- ==================================================================
   SHAMember model (models.py 58-116) and approval (views.py 285-326,
   admin.py 138-145)
   ================================================================== -/

/-- SHAMember.MEMBER_STATUS choices (models.py 64-69). -/
inductive MemberStatus
  | pending
  | active
  | suspended
  | inactive
deriving DecidableEq, Repr

/-- The SHAMember model (models.py 58-116), restricted to the fields the
claims touch; the county foreign key is represented by its code string. -/
structure Member where
  id : Nat
  user_id : Nat
  sha_number : String
  status : MemberStatus
  approval_date : Option Nat
  approved_by : Option Nat
  county_code : String
  phone_number : String
deriving DecidableEq, Repr

/-- The six digit draws of `secrets.choice(string.digits)` rendered as a
string (models.py 112, also used at 356). -/
def digitString (digits : Fin 6 → Fin 10) : String :=
  String.mk ((List.finRange 6).map (fun i => Char.ofNat (48 + (digits i).val)))

/-- SHAMember.generate_sha_number (models.py 110-113):
SHA + county code + random 6 digits. -/
def generate_sha_number (countyCode : String) (digits : Fin 6 → Fin 10) :
    String :=
  "SHA" ++ countyCode ++ digitString digits

/-- SHAMember.save (models.py 105-108): the number is generated only when
the field is empty; otherwise the record is persisted as is.  No collision
check is performed here. -/
def memberSave (m : Member) (digits : Fin 6 → Fin 10) : Member :=
  if m.sha_number = "" then
    { m with sha_number := generate_sha_number m.county_code digits }
  else m

/-- Construction of a fresh SHAMember with the model's field defaults:
status default 'pending' (models.py 97), sha_number empty until save. -/
def registerMember (i u : Nat) (countyCode phone : String) : Member :=
  { id := i, user_id := u, sha_number := "", status := .pending,
    approval_date := none, approved_by := none,
    county_code := countyCode, phone_number := phone }

/-- Uniqueness errors surfaced by the storage layer when a
unique/unique_together constraint is violated. -/
inductive InsertError
  | DuplicateConstraintError
deriving DecidableEq, Repr

/-- Whether some stored member already carries this sha_number. -/
def memberHasNumber (store : List Member) (n : String) : Bool :=
  store.any (fun x => x.sha_number = n)

/-- Saving a new member into the member table: the save hook runs
(models.py 105-108), then the `unique=True` constraint on sha_number
(models.py 72) rejects a duplicate number — nothing regenerates it. -/
def memberInsert (store : List Member) (m : Member)
    (digits : Fin 6 → Fin 10) : Except InsertError (List Member) :=
  let msaved := memberSave m digits
  if memberHasNumber store msaved.sha_number then
    .error .DuplicateConstraintError
  else .ok (store ++ [msaved])

/-- AuditLog.ACTION_TYPES (models.py 630-641). -/
inductive ActionType
  | create
  | update
  | delete
  | login
  | logout
  | approval
  | rejection
  | payment
  | otp_generation
  | otp_verification
deriving DecidableEq, Repr

/-- An AuditLog row (models.py 629-652), fields relevant to the claims. -/
structure AuditEntry where
  user : Option Nat
  action_type : ActionType
  model_name : String
  object_id : String
deriving DecidableEq, Repr

/-- A Notification row (models.py 594-624), fields relevant to the claims. -/
structure NotificationRec where
  recipient_user : Nat
  notification_kind : String
  method : String
  phone_number : String
deriving DecidableEq, Repr

/-- The member together with the audit log and notification tables the
approve_member view writes to. -/
structure ApproveState where
  member : Member
  audit : List AuditEntry
  notifications : List NotificationRec
deriving DecidableEq, Repr

/-- The approve_member view, POST branch (views.py 294-324): only a member
in 'pending' status is mutated — status becomes 'active', approval_date and
approved_by are recorded, one 'approval' audit entry and one
'registration_approved' notification are created; any other status only
yields a warning message and changes nothing.  member.save() runs the
sha_number hook (models.py 105-108).  The returned flag records which
branch ran: `true` for the success message, `false` for the 'Member is
not in pending status.' warning. -/
def approveMember (st : ApproveState) (adminUser now : Nat)
    (digits : Fin 6 → Fin 10) : ApproveState × Bool :=
  if st.member.status = .pending then
    ({ member := memberSave
        { st.member with status := .active, approval_date := some now,
                         approved_by := some adminUser } digits,
       audit := st.audit ++
        [{ user := some adminUser, action_type := .approval,
           model_name := "SHAMember", object_id := toString st.member.id }],
       notifications := st.notifications ++
        [{ recipient_user := st.member.user_id,
           notification_kind := "registration_approved", method := "sms",
           phone_number := st.member.phone_number }] }, true)
  else (st, false)

/-- Number of 'approval' audit entries recorded against a given member. -/
def approvalEntriesFor (log : List AuditEntry) (memberId : Nat) : Nat :=
  (log.filter (fun e =>
    e.action_type = .approval ∧ e.model_name = "SHAMember" ∧
      e.object_id = toString memberId)).length

/-- Per-row effect of SHAMemberAdmin.approve_members (admin.py 138-145):
`queryset.filter(status='pending').update(status='active', ...)`. -/
def approveOneIfPending (adminUser now : Nat) (m : Member) : Member :=
  if m.status = .pending then
    { m with status := .active, approval_date := some now,
             approved_by := some adminUser }
  else m

/-- SHAMemberAdmin.approve_members: bulk update reporting the row count. -/
def bulkApproveMembers (memberList : List Member) (adminUser now : Nat) :
    List Member × Nat :=
  (memberList.map (approveOneIfPending adminUser now),
   (memberList.filter (fun m => m.status = .pending)).length)

/- ==================================================================
   Contribution ledger (models.py 279-322)
   ================================================================== -/

/-- Contribution.PAYMENT_STATUS choices (models.py 286-291). -/
inductive ContributionStatus
  | pending
  | completed
  | failed
  | refunded
deriving DecidableEq, Repr

/-- The Contribution model (models.py 279-322); the member foreign key is a
numeric id and contribution_month (a first-of-month date) a numeric period
index. -/
structure Contribution where
  member : Nat
  contribution_month : Nat
  amount : Int
  payment_method : String
  payment_reference : String
  status : ContributionStatus
deriving DecidableEq, Repr

/-- Whether the table already holds a contribution for (member, period). -/
def hasContributionFor (store : List Contribution) (m p : Nat) : Bool :=
  store.any (fun c => c.member = m ∧ c.contribution_month = p)

/-- The storage-level `unique_together = ['member', 'contribution_month']`
constraint (models.py 318-319): an insert colliding on (member, period)
is rejected by the constraint itself, not by application code. -/
def insertContribution (store : List Contribution) (c : Contribution) :
    Except InsertError (List Contribution) :=
  if hasContributionFor store c.member c.contribution_month then
    .error .DuplicateConstraintError
  else .ok (store ++ [c])

/-- Modelled from the spec: the `record_payment(member, period, amount,
method, reference)` ledger operation of section 4.2 is absent from src/;
only the Contribution model and its unique_together constraint exist
(models.py 279-322).  Per the spec it performs no application-level
uniqueness check of its own — the storage constraint decides. -/
def record_payment (store : List Contribution) (m p : Nat) (amount : Int)
    (method reference : String) (st : ContributionStatus) :
    Except InsertError (List Contribution) :=
  insertContribution store
    { member := m, contribution_month := p, amount := amount,
      payment_method := method, payment_reference := reference, status := st }

/-- The ledger state after a record_payment attempt: a failed insert leaves
the table exactly as it was. -/
def runRecordPayment (store : List Contribution) (m p : Nat) (amount : Int)
    (method reference : String) (st : ContributionStatus) :
    List Contribution :=
  match record_payment store m p amount method reference st with
  | .ok store2 => store2
  | .error _ => store

/-- The ledger total for (member, period): sum of recorded amounts, zero
when no row exists. -/
def totalFor (store : List Contribution) (m p : Nat) : Int :=
  ((store.filter (fun c => c.member = m ∧ c.contribution_month = p)).map
    (fun c => c.amount)).sum

/-- Number of contributions recorded for (member, period). -/
def countFor (store : List Contribution) (m p : Nat) : Nat :=
  (store.filter (fun c => c.member = m ∧ c.contribution_month = p)).length

/-- The per-(member, period) uniqueness invariant of the table, as a
decidable check: no row's (member, period) pair recurs later in the list. -/
def uniquePerPeriodB : List Contribution → Bool
  | [] => true
  | c :: rest =>
      !hasContributionFor rest c.member c.contribution_month &&
        uniquePerPeriodB rest

/- ==================================================================
   OTP model (models.py 328-362)
   ================================================================== -/

/-- An OTP row after save (models.py 328-362): otp_code, expires_at and
is_used are always populated at that point. -/
structure OTPRec where
  member : Nat
  purpose : String
  otp_code : String
  is_used : Bool
  expires_at : Nat
deriving DecidableEq, Repr

/-- Ten minutes expressed in the second-valued time scale. -/
def tenMinutes : Nat := 600

/-- OTP.generate_otp (models.py 355-356): six random decimal digits. -/
def generate_otp (digits : Fin 6 → Fin 10) : String :=
  digitString digits

/-- OTP.save (models.py 348-353): an empty code is replaced by a generated
one and an unset expiry (`none`) by now + 10 minutes; supplied values are
kept. -/
def otpSave (memberId : Nat) (purpose code : String) (expiry : Option Nat)
    (used : Bool) (digits : Fin 6 → Fin 10) (now : Nat) : OTPRec :=
  { member := memberId, purpose := purpose,
    otp_code := if code = "" then generate_otp digits else code,
    is_used := used,
    expires_at := expiry.getD (now + tenMinutes) }

/-- OTP.is_expired (models.py 358-359): strictly after the stored expiry. -/
def otpIsExpired (o : OTPRec) (now : Nat) : Bool :=
  o.expires_at < now

/-- The three distinguishable OTP verification failures of spec section
4.3 / 7. -/
inductive OTPVerifyError
  | OTPInvalidError
  | OTPExpiredError
  | OTPAlreadyUsedError
deriving DecidableEq, Repr

/-- Modelled from the spec: the OTP verification step of section 4.3 is
absent from src/ (only the OTP model with is_used, expires_at and
is_expired exists, models.py 328-362).  A wrong code fails with
OTPInvalidError, a used one with OTPAlreadyUsedError, an expired one with
OTPExpiredError; success consumes the OTP by setting is_used. -/
def verifyOTP (o : OTPRec) (supplied : String) (now : Nat) :
    Except OTPVerifyError OTPRec :=
  if supplied ≠ o.otp_code then .error .OTPInvalidError
  else if o.is_used then .error .OTPAlreadyUsedError
  else if otpIsExpired o now then .error .OTPExpiredError
  else .ok { o with is_used := true }

/- ==================================================================
   Prescription model and dispensing (models.py 486-535)
   ================================================================== -/

/-- Prescription.PRESCRIPTION_STATUS choices (models.py 487-492). -/
inductive PrescriptionStatus
  | pending
  | dispensed
  | partially_dispensed
  | cancelled
deriving DecidableEq, Repr

/-- A PrescriptionItem row (models.py 522-535), quantities as naturals. -/
structure PrescriptionItem where
  medicine : Nat
  quantity_prescribed : Nat
  quantity_dispensed : Nat
deriving DecidableEq, Repr

/-- PrescriptionItem.is_fully_dispensed (models.py 531-532):
quantity_dispensed >= quantity_prescribed. -/
def is_fully_dispensed (it : PrescriptionItem) : Bool :=
  it.quantity_prescribed ≤ it.quantity_dispensed

/-- A Prescription together with its items (models.py 486-520, 522-535). -/
structure PrescriptionRec where
  items : List PrescriptionItem
  status : PrescriptionStatus
deriving DecidableEq, Repr

/-- The aggregate of item fulfillment prescribed by spec section 4.3: all
items fully dispensed → dispensed; some dispensing occurred → partially
dispensed; none → pending. -/
def aggregateStatus (items : List PrescriptionItem) : PrescriptionStatus :=
  if items.all (fun it => is_fully_dispensed it) then .dispensed
  else if items.any (fun it => 0 < it.quantity_dispensed) then
    .partially_dispensed
  else .pending

/-- Failures of the dispensing operation per the spec's error taxonomy. -/
inductive DispenseError
  | OverDispenseError
  | NotFoundError
deriving DecidableEq, Repr

/-- Modelled from the spec: the dispensing mutation of section 4.3 is
absent from src/ (the source never recomputes prescription status, as the
spec's design notes record); is_fully_dispensed is from the source
(models.py 531-532).  Dispensing adds qty units to one item — never
decreasing, failing with OverDispenseError when the item would exceed its
prescribed quantity — and then recomputes the prescription status as the
aggregate of its items. -/
def dispenseItem (p : PrescriptionRec) (idx qty : Nat) :
    Except DispenseError PrescriptionRec :=
  match p.items[idx]? with
  | none => .error .NotFoundError
  | some it =>
      if it.quantity_prescribed < it.quantity_dispensed + qty then
        .error .OverDispenseError
      else
        let items2 := p.items.set idx
          { it with quantity_dispensed := it.quantity_dispensed + qty }
        .ok { items := items2, status := aggregateStatus items2 }

/- ==================================================================
   Helper lemmas and sample values
   ================================================================== -/

/-- A fixed digit source, used by concrete witnesses. -/
def dZeroDigits : Fin 6 → Fin 10 := fun _ => 0

/-- memberSave only ever touches sha_number: all other fields survive. -/
theorem memberSave_frame (m : Member) (digits : Fin 6 → Fin 10) :
    (memberSave m digits).id = m.id ∧
    (memberSave m digits).user_id = m.user_id ∧
    (memberSave m digits).status = m.status ∧
    (memberSave m digits).approval_date = m.approval_date ∧
    (memberSave m digits).approved_by = m.approved_by := by
  by_cases h : m.sha_number = "" <;> simp [memberSave, h]

/-- Appending the approval audit entry for a member raises that member's
approval-entry count by exactly one. -/
theorem approvalEntriesFor_append (log : List AuditEntry)
    (memberId adminUser : Nat) :
    approvalEntriesFor
        (log ++ [{ user := some adminUser, action_type := .approval,
                   model_name := "SHAMember",
                   object_id := toString memberId }]) memberId
      = approvalEntriesFor log memberId + 1 := by
  simp [approvalEntriesFor, List.filter_append, List.filter]

/- ==================================================================
   Theorems for the claims
   ================================================================== -/

/-- Claim C9: for every member whose sha_number is already set, save leaves
sha_number unchanged — number generation runs only on an empty field, so
the identifier is immutable once assigned, whatever else changed. -/
theorem sha_number_immutable (m : Member) (digits : Fin 6 → Fin 10)
    (h : m.sha_number ≠ "") :
    (memberSave m digits).sha_number = m.sha_number := by
  simp [memberSave, h]

/-- A concrete member record with an assigned sha_number. -/
def memberC9 : Member :=
  { id := 4, user_id := 4, sha_number := "SHA047123456", status := .active,
    approval_date := some 50, approved_by := some 1, county_code := "047",
    phone_number := "0711000000" }

theorem sha_number_immutable_witness :
    memberC9.sha_number ≠ "" ∧
    (memberSave memberC9 dZeroDigits).sha_number = memberC9.sha_number :=
  ⟨by decide, sha_number_immutable memberC9 dZeroDigits (by decide)⟩

/-- Claim C10: a reject request with an empty reason leaves the claim
entirely unchanged; a successful rejection modifies only status,
rejection_reason, reviewed_date and reviewed_by — in particular
amount_claimed and amount_approved are untouched. -/
theorem claim_reject_frame (c : Claim) (reason : String)
    (now reviewer : Nat) :
    (reason = "" → claimReject c reason now reviewer = c) ∧
    ((claimReject c reason now reviewer).hospital = c.hospital ∧
     (claimReject c reason now reviewer).visit = c.visit ∧
     (claimReject c reason now reviewer).claim_number = c.claim_number ∧
     (claimReject c reason now reviewer).claim_type = c.claim_type ∧
     (claimReject c reason now reviewer).amount_claimed = c.amount_claimed ∧
     (claimReject c reason now reviewer).amount_approved = c.amount_approved ∧
     (claimReject c reason now reviewer).submitted_date = c.submitted_date ∧
     (claimReject c reason now reviewer).review_notes = c.review_notes) ∧
    (reason ≠ "" →
     (claimReject c reason now reviewer).status = .rejected ∧
     (claimReject c reason now reviewer).rejection_reason = reason ∧
     (claimReject c reason now reviewer).reviewed_date = some now ∧
     (claimReject c reason now reviewer).reviewed_by = some reviewer) := by
  by_cases h : reason = "" <;> simp [claimReject, h]

/-- A concrete claim under review with a previously set approved amount,
exercising the reject frame. -/
def claimC10 : Claim :=
  { hospital := 2, visit := 5, claim_number := "CLM202401050001",
    claim_type := "treatment", amount_claimed := 80000,
    amount_approved := some 60000, status := .under_review,
    submitted_date := 10, reviewed_date := none, reviewed_by := none,
    rejection_reason := "", review_notes := "n" }

theorem claim_reject_frame_witness :
    (claimReject claimC10 "" 20 3 = claimC10) ∧
    ((claimReject claimC10 "missing documents" 20 3).amount_claimed
        = claimC10.amount_claimed ∧
     (claimReject claimC10 "missing documents" 20 3).amount_approved
        = claimC10.amount_approved) ∧
    ("missing documents" ≠ "" ∧
     (claimReject claimC10 "missing documents" 20 3).status = .rejected) :=
  ⟨(claim_reject_frame claimC10 "" 20 3).1 rfl,
   ⟨(claim_reject_frame claimC10 "missing documents" 20 3).2.1.2.2.2.2.1,
    (claim_reject_frame claimC10 "missing documents" 20 3).2.1.2.2.2.2.2.1⟩,
   by decide,
   ((claim_reject_frame claimC10 "missing documents" 20 3).2.2
     (by decide)).1⟩

/-- A concrete claim already rejected, exercising the missing review-state
guard. -/
def claimC2 : Claim :=
  { hospital := 1, visit := 1, claim_number := "CLM202401010001",
    claim_type := "consultation", amount_claimed := 10000,
    amount_approved := none, status := .rejected, submitted_date := 0,
    reviewed_date := some 1, reviewed_by := some 9,
    rejection_reason := "incomplete", review_notes := "" }

/-- Claim C2 counterexample: claim_detail applies no state guard — approve
on an already-rejected claim succeeds and flips it to approved instead of
failing with InvalidStateError, and reject is equally re-applicable. -/
theorem claim_review_guard_cex :
    claimC2.status = .rejected ∧
    (claimApprove claimC2 (some 5000) "" 2 3).status = .approved ∧
    claimApprove claimC2 (some 5000) "" 2 3 ≠ claimC2 ∧
    (claimReject claimC2 "again" 2 3).status = .rejected ∧
    (claimReject claimC2 "again" 2 3).rejection_reason = "again" := by
  refine ⟨rfl, rfl, by decide, rfl, rfl⟩

/-- Claim C2 (amended): the claim_detail review view checks no state at
all — approve with a parseable amount sets status to 'approved' from any
current status, and reject with a non-empty reason sets 'rejected' from
any current status, so approve and reject each remain applicable after a
claim was already approved or rejected. -/
theorem claim_review_no_state_guard (c : Claim) (amt : Int)
    (notes reason : String) (now reviewer : Nat) :
    (claimApprove c (some amt) notes now reviewer).status = .approved ∧
    (reason ≠ "" →
      (claimReject c reason now reviewer).status = .rejected) := by
  refine ⟨rfl, fun h => ?_⟩
  simp [claimReject, h]

theorem claim_review_no_state_guard_witness :
    ("why" ≠ "") ∧
    (claimApprove claimC2 (some 5000) "n" 2 3).status = .approved ∧
    (claimReject claimC2 "why" 2 3).status = .rejected :=
  ⟨by decide,
   (claim_review_no_state_guard claimC2 5000 "n" "why" 2 3).1,
   (claim_review_no_state_guard claimC2 5000 "n" "why" 2 3).2 (by decide)⟩

/-- A concrete submitted claim for the approved-amount bound. -/
def claimC3 : Claim :=
  { hospital := 1, visit := 2, claim_number := "CLM202401020001",
    claim_type := "medicine", amount_claimed := 10000,
    amount_approved := none, status := .submitted, submitted_date := 0,
    reviewed_date := none, reviewed_by := none,
    rejection_reason := "", review_notes := "" }

/-- Claim C3 counterexample: approving 15000 against a 10000 claim
succeeds — amount_approved is set above amount_claimed with no
ExcessApprovalError anywhere. -/
theorem claim_excess_approval_cex :
    claimC3.amount_claimed = 10000 ∧
    claimC3.amount_claimed < 15000 ∧
    (claimApprove claimC3 (some 15000) "" 2 3).status = .approved ∧
    (claimApprove claimC3 (some 15000) "" 2 3).amount_approved
        = some 15000 := by
  refine ⟨rfl, by decide, rfl, rfl⟩

/-- Claim C3 (amended): approve accepts every parsed amount X with no
comparison against amount_claimed, setting amount_approved = X (so
amount_approved > amount_claimed is reachable); the only failing approval
path is an unparseable amount, which leaves the claim unchanged. -/
theorem claim_approve_no_amount_bound (c : Claim) (amt : Int)
    (notes : String) (now reviewer : Nat) :
    (claimApprove c (some amt) notes now reviewer).status = .approved ∧
    (claimApprove c (some amt) notes now reviewer).amount_approved
        = some amt ∧
    (claimApprove c (some amt) notes now reviewer).amount_claimed
        = c.amount_claimed ∧
    claimApprove c none notes now reviewer = c :=
  ⟨rfl, rfl, rfl, rfl⟩

/-- Claim C4: approving a pending member activates it, records approver and
approval timestamp, appends exactly one 'approval' audit entry for that
member and one notification; on any other status the operation reports the
failure and changes nothing. -/
theorem approve_member_spec (st : ApproveState) (adminUser now : Nat)
    (digits : Fin 6 → Fin 10) :
    (st.member.status = .pending →
      ((approveMember st adminUser now digits).1.member.status = .active ∧
       (approveMember st adminUser now digits).1.member.approval_date
           = some now ∧
       (approveMember st adminUser now digits).1.member.approved_by
           = some adminUser ∧
       approvalEntriesFor (approveMember st adminUser now digits).1.audit
           st.member.id
         = approvalEntriesFor st.audit st.member.id + 1 ∧
       (approveMember st adminUser now digits).1.notifications.length
         = st.notifications.length + 1 ∧
       (approveMember st adminUser now digits).2 = true)) ∧
    (st.member.status ≠ .pending →
      approveMember st adminUser now digits = (st, false)) := by
  constructor
  · intro h
    have hm := memberSave_frame
      { st.member with status := .active, approval_date := some now,
                       approved_by := some adminUser } digits
    rw [approveMember, if_pos h]
    exact ⟨hm.2.2.1, hm.2.2.2.1, hm.2.2.2.2,
      approvalEntriesFor_append st.audit st.member.id adminUser,
      by simp, rfl⟩
  · intro h
    rw [approveMember, if_neg h]

/-- A concrete pending member. -/
def memberC4 : Member :=
  { id := 7, user_id := 3, sha_number := "SHA001000001",
    status := .pending, approval_date := none, approved_by := none,
    county_code := "001", phone_number := "0722000000" }

/-- The pending member of memberC4 with empty audit and notification
tables. -/
def stC4 : ApproveState :=
  { member := memberC4, audit := [], notifications := [] }

theorem approve_member_spec_witness :
    stC4.member.status = .pending ∧
    approvalEntriesFor stC4.audit stC4.member.id = 0 ∧
    ((approveMember stC4 9 100 dZeroDigits).1.member.status = .active ∧
     (approveMember stC4 9 100 dZeroDigits).1.member.approval_date
         = some 100 ∧
     (approveMember stC4 9 100 dZeroDigits).1.member.approved_by = some 9 ∧
     approvalEntriesFor (approveMember stC4 9 100 dZeroDigits).1.audit
         stC4.member.id
       = approvalEntriesFor stC4.audit stC4.member.id + 1 ∧
     (approveMember stC4 9 100 dZeroDigits).1.notifications.length
       = stC4.notifications.length + 1 ∧
     (approveMember stC4 9 100 dZeroDigits).2 = true) :=
  ⟨rfl, rfl, (approve_member_spec stC4 9 100 dZeroDigits).1 rfl⟩

/-- A concrete claim in 'under_review' status for the bulk actions. -/
def claimC6 : Claim :=
  { hospital := 3, visit := 8, claim_number := "CLM202401080001",
    claim_type := "procedure", amount_claimed := 25000,
    amount_approved := none, status := .under_review, submitted_date := 4,
    reviewed_date := none, reviewed_by := none,
    rejection_reason := "", review_notes := "" }

/-- Claim C6 counterexample: the bulk claim actions filter on
status='submitted' only, so a claim in 'under_review' — an expected
starting state per the claim — is skipped with a reported count of 0
instead of being transitioned. -/
theorem bulk_claim_guard_cex :
    claimC6.status = .under_review ∧
    bulkApproveClaims [claimC6] 2 3 = ([claimC6], 0) ∧
    bulkRejectClaims [claimC6] 2 3 = ([claimC6], 0) := by
  refine ⟨rfl, by decide, by decide⟩

/-- Claim C6 (amended): bulk claim approve and reject transition exactly
the claims whose status is 'submitted' — claims in 'under_review' or any
other status are silently skipped, a narrower guard than the claim's
submitted-or-under_review (and the single-claim view applies no guard at
all); bulk member approval transitions exactly the 'pending' members,
matching the single-member guard; each action reports the exact count of
rows actually transitioned. -/
theorem bulk_actions_spec (claims : List Claim) (memberList : List Member)
    (c : Claim) (m : Member) (now reviewer adminUser : Nat) :
    (bulkApproveClaims claims now reviewer).2
        = (claims.filter (fun c2 => c2.status = .submitted)).length ∧
    (bulkRejectClaims claims now reviewer).2
        = (claims.filter (fun c2 => c2.status = .submitted)).length ∧
    (bulkApproveMembers memberList adminUser now).2
        = (memberList.filter (fun m2 => m2.status = .pending)).length ∧
    (bulkApproveClaims claims now reviewer).1
        = claims.map (approveOneIfSubmitted now reviewer) ∧
    (bulkRejectClaims claims now reviewer).1
        = claims.map (rejectOneIfSubmitted now reviewer) ∧
    (bulkApproveMembers memberList adminUser now).1
        = memberList.map (approveOneIfPending adminUser now) ∧
    (c.status ≠ .submitted → approveOneIfSubmitted now reviewer c = c ∧
        rejectOneIfSubmitted now reviewer c = c) ∧
    (c.status = .submitted →
        (approveOneIfSubmitted now reviewer c).status = .approved ∧
        (rejectOneIfSubmitted now reviewer c).status = .rejected) ∧
    (m.status ≠ .pending → approveOneIfPending adminUser now m = m) ∧
    (m.status = .pending →
        (approveOneIfPending adminUser now m).status = .active ∧
        (approveOneIfPending adminUser now m).approval_date = some now ∧
        (approveOneIfPending adminUser now m).approved_by
            = some adminUser) := by
  refine ⟨rfl, rfl, rfl, rfl, rfl, rfl, ?_, ?_, ?_, ?_⟩
  · intro h
    constructor <;> simp [approveOneIfSubmitted, rejectOneIfSubmitted, h]
  · intro h
    constructor <;> simp [approveOneIfSubmitted, rejectOneIfSubmitted, h]
  · intro h
    simp [approveOneIfPending, h]
  · intro h
    refine ⟨?_, ?_, ?_⟩ <;> simp [approveOneIfPending, h]

theorem bulk_actions_spec_witness :
    (claimC6.status ≠ .submitted ∧
     approveOneIfSubmitted 2 3 claimC6 = claimC6 ∧
     rejectOneIfSubmitted 2 3 claimC6 = claimC6) ∧
    (claimC3.status = .submitted ∧
     (approveOneIfSubmitted 2 3 claimC3).status = .approved) ∧
    (stC4.member.status = .pending ∧
     (approveOneIfPending 9 100 stC4.member).status = .active) :=
  ⟨⟨by decide,
    ((bulk_actions_spec [] [] claimC6 memberC9 2 3 9).2.2.2.2.2.2.1
      (by decide)).1,
    ((bulk_actions_spec [] [] claimC6 memberC9 2 3 9).2.2.2.2.2.2.1
      (by decide)).2⟩,
   ⟨rfl,
    ((bulk_actions_spec [] [] claimC3 memberC9 2 3 9).2.2.2.2.2.2.2.1
      rfl).1⟩,
   ⟨rfl,
    ((bulk_actions_spec [] [] claimC3 stC4.member 100 3 9).2.2.2.2.2.2.2.2.2
      rfl).1⟩⟩

/-- When no row for (m, p) is present at all, the (m, p) row count is 0. -/
theorem countFor_of_not_has (m p : Nat) :
    ∀ store : List Contribution,
      hasContributionFor store m p = false → countFor store m p = 0 := by
  intro store h
  induction store with
  | nil => rfl
  | cons c rest ih =>
      rw [hasContributionFor, List.any_cons, Bool.or_eq_false_iff] at h
      rw [countFor, List.filter_cons, if_neg (by simp [h.1])]
      exact ih h.2

/-- The decidable uniqueness invariant really caps every (m, p) count
at one. -/
theorem countFor_le_one (store : List Contribution)
    (hu : uniquePerPeriodB store = true) (m p : Nat) :
    countFor store m p ≤ 1 := by
  induction store with
  | nil => exact Nat.zero_le 1
  | cons c rest ih =>
      rw [uniquePerPeriodB, Bool.and_eq_true, Bool.not_eq_true'] at hu
      rw [countFor, List.filter_cons]
      by_cases hc : c.member = m ∧ c.contribution_month = p
      · rw [if_pos (by simp [hc])]
        have h0 : hasContributionFor rest m p = false := by
          rw [← hc.1, ← hc.2]; exact hu.1
        have h1 := countFor_of_not_has m p rest h0
        rw [countFor] at h1
        rw [List.length_cons, h1]
      · rw [if_neg (by simp [hc])]
        exact ih hu.2

/-- Appending a row whose (member, period) is fresh preserves the
uniqueness invariant. -/
theorem uniquePerPeriodB_append (c : Contribution) :
    ∀ store : List Contribution, uniquePerPeriodB store = true →
      hasContributionFor store c.member c.contribution_month = false →
      uniquePerPeriodB (store ++ [c]) = true := by
  intro store hu hn
  induction store with
  | nil => simp [uniquePerPeriodB, hasContributionFor]
  | cons d rest ih =>
      rw [uniquePerPeriodB, Bool.and_eq_true, Bool.not_eq_true'] at hu
      rw [hasContributionFor, List.any_cons, Bool.or_eq_false_iff] at hn
      rw [List.cons_append, uniquePerPeriodB, Bool.and_eq_true,
        Bool.not_eq_true']
      refine ⟨?_, ih hu.2 hn.2⟩
      rw [hasContributionFor, List.any_append, Bool.or_eq_false_iff]
      refine ⟨hu.1, ?_⟩
      simp only [List.any_cons, List.any_nil, Bool.or_false,
        decide_eq_false_iff_not] at hn ⊢
      exact fun hcd => hn.1 ⟨hcd.1.symm, hcd.2.symm⟩

/-- Claim C1: at most one contribution per (member, period), enforced by
the storage-level unique_together constraint: the invariant bounds every
(m, p) count by one and is preserved by successful inserts, and a second
record_payment for an occupied (m, p) fails with DuplicateConstraintError
leaving the table and its ledger total untouched. -/
theorem contribution_per_period_unique (store : List Contribution)
    (m p : Nat) (amount : Int) (method reference : String)
    (cst : ContributionStatus) :
    (uniquePerPeriodB store = true → ∀ m2 p2, countFor store m2 p2 ≤ 1) ∧
    (∀ store2, uniquePerPeriodB store = true →
       record_payment store m p amount method reference cst = .ok store2 →
       uniquePerPeriodB store2 = true) ∧
    (hasContributionFor store m p = true →
       record_payment store m p amount method reference cst
           = .error .DuplicateConstraintError ∧
       runRecordPayment store m p amount method reference cst = store ∧
       totalFor (runRecordPayment store m p amount method reference cst) m p
           = totalFor store m p) := by
  refine ⟨fun hu m2 p2 => countFor_le_one store hu m2 p2, ?_, ?_⟩
  · intro store2 hu hok
    rw [record_payment, insertContribution] at hok
    by_cases hdup : hasContributionFor store m p = true
    · rw [if_pos hdup] at hok
      cases hok
    · rw [if_neg hdup] at hok
      cases hok
      exact uniquePerPeriodB_append _ store hu
        (Bool.not_eq_true _ ▸ hdup)
  · intro hdup
    have herr : record_payment store m p amount method reference cst
        = .error .DuplicateConstraintError := by
      rw [record_payment, insertContribution, if_pos hdup]
    have hrun : runRecordPayment store m p amount method reference cst
        = store := by
      rw [runRecordPayment, herr]
    exact ⟨herr, hrun, by rw [hrun]⟩

/-- The ledger of the spec's section-8 scenario: member 1 paid 500 for
period 2024-01. -/
def ledgerC1 : List Contribution :=
  [{ member := 1, contribution_month := 202401, amount := 500,
     payment_method := "mpesa", payment_reference := "REF500",
     status := .completed }]

theorem contribution_per_period_unique_witness :
    (uniquePerPeriodB ledgerC1 = true ∧ countFor ledgerC1 1 202401 ≤ 1) ∧
    hasContributionFor ledgerC1 1 202401 = true ∧
    record_payment ledgerC1 1 202401 300 "mpesa" "REF300" .completed
        = .error .DuplicateConstraintError ∧
    totalFor
        (runRecordPayment ledgerC1 1 202401 300 "mpesa" "REF300" .completed)
        1 202401
      = 500 := by
  have h := contribution_per_period_unique ledgerC1 1 202401 300 "mpesa"
    "REF300" .completed
  refine ⟨⟨by decide, h.1 (by decide) 1 202401⟩, by decide,
    (h.2.2 (by decide)).1, ?_⟩
  rw [(h.2.2 (by decide)).2.2]
  decide

/-- Every string produced by the six-draw digit source has exactly six
characters, all decimal digits. -/
theorem digitString_spec (digits : Fin 6 → Fin 10) :
    (digitString digits).data.length = 6 ∧
    ∀ ch ∈ (digitString digits).data, ch.isDigit = true := by
  constructor
  · simp [digitString]
  · intro ch hch
    have hall : ∀ d : Fin 10, (Char.ofNat (48 + d.val)).isDigit = true := by
      decide
    simp only [digitString, List.mem_map] at hch
    obtain ⟨i, _, hi⟩ := hch
    rw [← hi]
    exact hall (digits i)

/-- Claim C7: an OTP saved without explicit code or expiry gets a 6-digit
numeric code and an expiry of issuance time plus ten minutes; is_expired
holds exactly when the current time is strictly after the stored expiry;
and verification of a used or expired OTP always fails. -/
theorem otp_spec (memberId : Nat) (purpose code s : String)
    (used : Bool) (digits : Fin 6 → Fin 10) (now t : Nat) (o : OTPRec) :
    ((otpSave memberId purpose "" none used digits now).otp_code.data.length
        = 6 ∧
     ∀ ch ∈ (otpSave memberId purpose "" none used digits now).otp_code.data,
       ch.isDigit = true) ∧
    (otpSave memberId purpose code none used digits now).expires_at
        = now + tenMinutes ∧
    (otpIsExpired o t = true ↔ o.expires_at < t) ∧
    (o.is_used = true ∨ otpIsExpired o t = true →
       ∃ e, verifyOTP o s t = .error e) := by
  refine ⟨?_, rfl, by simp [otpIsExpired], ?_⟩
  · have h := digitString_spec digits
    simpa [otpSave, generate_otp] using h
  · intro h
    rw [verifyOTP]
    by_cases h1 : s ≠ o.otp_code
    · exact ⟨.OTPInvalidError, by rw [if_pos h1]⟩
    · rw [if_neg h1]
      by_cases h2 : o.is_used
      · exact ⟨.OTPAlreadyUsedError, by rw [if_pos h2]⟩
      · rcases h with hu | he
        · exact absurd hu h2
        · exact ⟨.OTPExpiredError, by rw [if_neg h2, if_pos he]⟩

/-- A concrete already-consumed OTP. -/
def otpC7 : OTPRec :=
  { member := 1, purpose := "hospital_visit", otp_code := "123456",
    is_used := true, expires_at := 1000 }

theorem otp_spec_witness :
    (otpC7.is_used = true ∨ otpIsExpired otpC7 0 = true) ∧
    (∃ e, verifyOTP otpC7 "123456" 0 = .error e) ∧
    (otpSave 1 "hospital_visit" "" none false dZeroDigits 40).expires_at
        = 40 + tenMinutes :=
  ⟨Or.inl rfl,
   (otp_spec 1 "hospital_visit" "" "123456" true dZeroDigits 0 0 otpC7).2.2.2
     (Or.inl rfl),
   (otp_spec 1 "hospital_visit" "" "123456" false dZeroDigits 40 0
     otpC7).2.1⟩

/-- A member already holding the sha_number that the colliding draw will
reproduce. -/
def memberC8 : Member :=
  { id := 1, user_id := 1, sha_number := "SHA01123456", status := .active,
    approval_date := none, approved_by := none, county_code := "01",
    phone_number := "0700000001" }

/-- The digit draw 1,2,3,4,5,6. -/
def digitsC8 : Fin 6 → Fin 10 :=
  fun i => ⟨i.val + 1, by have := i.isLt; omega⟩

/-- Claim C8 counterexample: when the generated number collides with an
existing member's, the save fails at the sha_number uniqueness constraint
with DuplicateConstraintError — nothing regenerates a fresh number. -/
theorem member_number_collision_cex :
    memberC8.sha_number = "SHA01123456" ∧
    generate_sha_number "01" digitsC8 = "SHA01123456" ∧
    memberInsert [memberC8] (registerMember 2 2 "01" "0700000002") digitsC8
        = .error .DuplicateConstraintError := by
  refine ⟨rfl, by decide, ?_⟩
  rw [memberInsert]
  simp only [if_pos (show memberHasNumber [memberC8]
    (memberSave (registerMember 2 2 "01" "0700000002")
      digitsC8).sha_number = true by decide)]

/-- Claim C8 (amended): a freshly registered member is 'pending' and its
generated number is the fixed prefix SHA + county code + six random
digits; the generator performs no collision check, so a colliding number
makes the insert fail with DuplicateConstraintError at the uniqueness
constraint instead of being regenerated. -/
theorem member_registration_spec (countyCode phone : String) (i u : Nat)
    (digits : Fin 6 → Fin 10) (store : List Member) (m : Member) :
    (registerMember i u countyCode phone).status = .pending ∧
    generate_sha_number countyCode digits
        = "SHA" ++ countyCode ++ digitString digits ∧
    ((digitString digits).data.length = 6 ∧
     ∀ ch ∈ (digitString digits).data, ch.isDigit = true) ∧
    (memberHasNumber store (memberSave m digits).sha_number = true →
       memberInsert store m digits = .error .DuplicateConstraintError) := by
  refine ⟨rfl, rfl, digitString_spec digits, fun h => ?_⟩
  rw [memberInsert]
  simp only [h, if_true]

theorem member_registration_spec_witness :
    (registerMember 2 2 "01" "0700000002").status = .pending ∧
    memberHasNumber [memberC8]
        (memberSave (registerMember 2 2 "01" "0700000002")
          digitsC8).sha_number = true ∧
    memberInsert [memberC8] (registerMember 2 2 "01" "0700000002") digitsC8
        = .error .DuplicateConstraintError :=
  ⟨rfl, by decide,
   (member_registration_spec "01" "0700000002" 2 2 digitsC8 [memberC8]
     (registerMember 2 2 "01" "0700000002")).2.2.2 (by decide)⟩

/-- The three branches of the aggregate prescription status. -/
theorem aggregateStatus_cases (items : List PrescriptionItem) :
    (items.all (fun it => is_fully_dispensed it) = true →
        aggregateStatus items = .dispensed) ∧
    (items.all (fun it => is_fully_dispensed it) = false →
     items.any (fun it => 0 < it.quantity_dispensed) = true →
        aggregateStatus items = .partially_dispensed) ∧
    (items.all (fun it => is_fully_dispensed it) = false →
     items.any (fun it => 0 < it.quantity_dispensed) = false →
        aggregateStatus items = .pending) := by
  by_cases h1 : items.all (fun it => is_fully_dispensed it) = true <;>
    by_cases h2 : items.any (fun it => 0 < it.quantity_dispensed) = true <;>
      simp [aggregateStatus, h1, h2]

/-- Claim C5: after every successful dispensing mutation the prescription
status equals the aggregate of its items' fulfillment — dispensed when all
items reached their prescribed quantity, partially dispensed when some
dispensing occurred but not all items are full, pending when none has. -/
theorem prescription_status_aggregate (p : PrescriptionRec) (idx qty : Nat)
    (p2 : PrescriptionRec) (h : dispenseItem p idx qty = .ok p2) :
    p2.status = aggregateStatus p2.items ∧
    (p2.items.all (fun it => is_fully_dispensed it) = true →
        p2.status = .dispensed) ∧
    (p2.items.all (fun it => is_fully_dispensed it) = false →
     p2.items.any (fun it => 0 < it.quantity_dispensed) = true →
        p2.status = .partially_dispensed) ∧
    (p2.items.all (fun it => is_fully_dispensed it) = false →
     p2.items.any (fun it => 0 < it.quantity_dispensed) = false →
        p2.status = .pending) := by
  rw [dispenseItem] at h
  split at h
  · cases h
  · split at h
    · cases h
    · cases h
      exact ⟨rfl, aggregateStatus_cases _⟩

/-- A two-item prescription, nothing dispensed yet. -/
def rxC5 : PrescriptionRec :=
  { items := [{ medicine := 1, quantity_prescribed := 2,
                quantity_dispensed := 0 },
              { medicine := 2, quantity_prescribed := 1,
                quantity_dispensed := 0 }],
    status := .pending }

/-- rxC5 after dispensing one unit of the first item. -/
def rxC5after : PrescriptionRec :=
  { items := [{ medicine := 1, quantity_prescribed := 2,
                quantity_dispensed := 1 },
              { medicine := 2, quantity_prescribed := 1,
                quantity_dispensed := 0 }],
    status := .partially_dispensed }

theorem prescription_status_aggregate_witness :
    dispenseItem rxC5 0 1 = .ok rxC5after ∧
    rxC5after.status = aggregateStatus rxC5after.items ∧
    rxC5after.status = .partially_dispensed :=
  ⟨by rfl,
   (prescription_status_aggregate rxC5 0 1 rxC5after (by rfl)).1,
   rfl⟩
